import Mathlib

/-!
Verification of the `ContactsScraper` repository (`src/ContactScraper.py`).

The development shallowly embeds the pure core of `ContactScraper`:

* the regular-expression extraction of `extract_contact_info` (the default
  email pattern and the four default phone patterns use only literal
  characters, character classes, `?`, `+`, `{n}` and `{n,}` repetition over
  character classes, so a small backtracking matcher with Python's
  greedy/leftmost `re.findall` semantics suffices and is structurally
  terminating);
* `find_contact_links` (the HTML parse performed by BeautifulSoup and the
  relative-URL resolution of `urllib.parse.urljoin` are external libraries:
  a parsed page is represented by its list of href-carrying anchors, and
  `urljoin` is an explicit function parameter);
* `get_page_content` and the priority orchestrator
  `scrape_website_prioritized`, with the network modelled as a function
  `http : String → Except String Page` (`.error e` plays the role of a
  raised exception with text `e`, covering timeouts, connection errors and
  the `raise_for_status` of non-2xx responses).
-/

namespace ContactsScraper

/-! ## Python string helpers -/

/-- Python `\s`: the whitespace characters recognised by `str.strip()` and
the `\s` class of the `re` module (ASCII mode): space, `\t`, `\n`, `\r`,
`\x0b` (`\v`), `\x0c` (`\f`). -/
def isPySpace (c : Char) : Bool :=
  c = ' ' || c = '\t' || c = '\n' || c = '\r' || c = '\x0b' || c = '\x0c'

/-- `startsWithL n s` is true when the list `n` is an initial segment of `s`
(Python `str.startswith`). -/
def startsWithL : List Char → List Char → Bool
  | [], _ => true
  | _ :: _, [] => false
  | c :: n, d :: s => c = d && startsWithL n s

/-- `containsSub n s` is true when `n` occurs contiguously inside `s`
(the Python `in` operator on strings). -/
def containsSub : List Char → List Char → Bool
  | n, [] => n.isEmpty
  | n, c :: s => startsWithL n (c :: s) || containsSub n s

/-- Python `str.strip()` on a character list: drop leading and trailing
whitespace. -/
def stripL (s : List Char) : List Char :=
  ((s.dropWhile isPySpace).reverse.dropWhile isPySpace).reverse

/-- Python `str.strip()`. -/
def pyStrip (s : String) : String := String.mk (stripL s.toList)

/-- Python `str.lower()` (the inputs of interest are ASCII). -/
def pyLower (s : String) : String := String.mk (s.toList.map Char.toLower)

/-- `re.sub(r'[-.\s()]', '', phone)` of `extract_contact_info`: delete every
separator character (`-`, `.`, whitespace, parentheses). -/
def pyClean (s : String) : List Char :=
  s.toList.filter fun c => !(c = '-' || c = '.' || c = '(' || c = ')' || isPySpace c)

/-! ## A small regular-expression engine

The grammar below covers exactly the constructs appearing in the default
patterns of `ContactScraper.__init__`: literal characters, character
classes, greedy `?`, and greedy `+`/`{n}`/`{n,}` applied to character
classes.  `matchList r s` returns the possible remainders of `s` after a
match of `r` at the start of `s`, in Python's backtracking priority order
(greedy quantifiers try longer consumptions first), so its head is the
match Python's engine commits to. -/

inductive Rx where
  | lit (c : Char)
  | cls (p : Char → Bool)
  | clsPlus (p : Char → Bool)
  | clsRep (p : Char → Bool) (n : Nat)
  | clsRepGe (p : Char → Bool) (n : Nat)
  | opt (r : Rx)
  | seq (a b : Rx)

/-- `greedyDrops s lo k` = `[s.drop (lo+k-1), …, s.drop (lo+1), s.drop lo]`:
the remainders after consuming `lo+k-1` down to `lo` characters, longest
consumption first (greedy priority). -/
def greedyDrops (s : List Char) (lo : Nat) : Nat → List (List Char)
  | 0 => []
  | k + 1 => s.drop (lo + k) :: greedyDrops s lo k

/-- Remainders of `s` after matching `r` at its start, in backtracking
priority order. -/
def Rx.matchList : Rx → List Char → List (List Char)
  | .lit _, [] => []
  | .lit c, d :: s => if d = c then [s] else []
  | .cls _, [] => []
  | .cls p, d :: s => if p d then [s] else []
  | .clsPlus p, s => greedyDrops s 1 (s.takeWhile p).length
  | .clsRep p n, s => if n ≤ (s.takeWhile p).length then [s.drop n] else []
  | .clsRepGe p n, s =>
      let m := (s.takeWhile p).length
      if n ≤ m then greedyDrops s n (m - n + 1) else []
  | .opt r, s => r.matchList s ++ [s]
  | .seq a b, s => (a.matchList s).flatMap b.matchList

/-- One scan of Python `re.findall`: attempt a match at each position,
left to right; on a match, record the matched text and resume at the match
end (an empty match records `""` and advances one position, as CPython
does).  The first argument is fuel, kept structurally decreasing so that
the function reduces inside the kernel; every step strictly shortens the
remaining input, so fuel `length + 1` (as supplied by `pyFindAll`) is never
exhausted. -/
def findAllAux (r : Rx) : Nat → List Char → List (List Char)
  | 0, _ => []
  | _ + 1, [] => if (r.matchList []).isEmpty then [] else [[]]
  | f + 1, c :: cs =>
    match (r.matchList (c :: cs)).head? with
    | none => findAllAux r f cs
    | some rem =>
      if (c :: cs).length - rem.length = 0 then
        [] :: findAllAux r f cs
      else
        ((c :: cs).take ((c :: cs).length - rem.length)) ::
          findAllAux r f ((c :: cs).drop ((c :: cs).length - rem.length))

/-- `re.findall(pattern, s)` for a pattern without capture groups. -/
def pyFindAll (r : Rx) (s : String) : List String :=
  (findAllAux r (s.toList.length + 1) s.toList).map String.mk

/-! ## The scraper configuration (`ContactScraper.__init__`) -/

/-- The mutable configuration carried by a `ContactScraper` instance:
`self.email_pattern`, `self.phone_patterns`, `self.contact_terms`
(the networking fields `timeout`/`headers` live inside the abstract
`http` function). -/
structure ContactScraper where
  email_pattern : Rx
  phone_patterns : List Rx
  contact_terms : List String

/-- `[a-zA-Z0-9._%+-]` -/
def emailLocalC (c : Char) : Bool :=
  c.isAlphanum || c = '.' || c = '_' || c = '%' || c = '+' || c = '-'

/-- `[a-zA-Z0-9.-]` -/
def emailDomainC (c : Char) : Bool :=
  c.isAlphanum || c = '.' || c = '-'

/-- `[a-zA-Z]` -/
def alphaC (c : Char) : Bool := c.isAlpha

/-- `\d` -/
def digitC (c : Char) : Bool := c.isDigit

/-- `[-.\s]` -/
def sepC (c : Char) : Bool := c = '-' || c = '.' || isPySpace c

/-- Default email pattern `[a-zA-Z0-9._%+-]+@[a-zA-Z0-9.-]+\.[a-zA-Z]{2,}`. -/
def emailRx : Rx :=
  .seq (.clsPlus emailLocalC)
    (.seq (.lit '@')
      (.seq (.clsPlus emailDomainC)
        (.seq (.lit '.') (.clsRepGe alphaC 2))))

/-- The literal `91`. -/
def rx91 : Rx := .seq (.lit '9') (.lit '1')

/-- `[-.\s]?` -/
def optSep : Rx := .opt (.cls sepC)

/-- `91[-.\s]?\d{10}` -/
def phoneRx1 : Rx := .seq rx91 (.seq optSep (.clsRep digitC 10))

/-- `\+91[-.\s]?\d{10}` -/
def phoneRx2 : Rx := .seq (.lit '+') phoneRx1

/-- `91[-.\s]?\d{3}[-.\s]?\d{3}[-.\s]?\d{4}` -/
def phoneRx3 : Rx :=
  .seq rx91
    (.seq optSep
      (.seq (.clsRep digitC 3)
        (.seq optSep
          (.seq (.clsRep digitC 3)
            (.seq optSep (.clsRep digitC 4))))))

/-- `\+91[-.\s]?\d{3}[-.\s]?\d{3}[-.\s]?\d{4}` -/
def phoneRx4 : Rx := .seq (.lit '+') phoneRx3

/-- The configuration installed by `ContactScraper.__init__`. -/
def defaultScraper : ContactScraper where
  email_pattern := emailRx
  phone_patterns := [phoneRx1, phoneRx2, phoneRx3, phoneRx4]
  contact_terms := ["contact", "contact us", "get in touch", "reach us"]

/-! ## `extract_contact_info` -/

/-- The Boolean test applied to each phone candidate by
`extract_contact_info`: after `re.sub(r'[-.\s()]', '', phone)`, the cleaned
form must start with `+91` or `91`. -/
def indianPhoneTest (phone : String) : Bool :=
  startsWithL "+91".toList (pyClean phone) || startsWithL "91".toList (pyClean phone)

/-- `ContactScraper.extract_contact_info`: emails by one `re.findall`,
phone candidates by `re.findall` over each pattern in order, the
prefix filter on the separator-stripped form, then `list(set(...))`
deduplication (modelled by `List.dedup`, which keeps first occurrences;
the Python set has no meaningful order). -/
def extract_contact_info (s : ContactScraper) (html_content : String) :
    List String × List String :=
  let emails := pyFindAll s.email_pattern html_content
  let phone_numbers := s.phone_patterns.flatMap fun p => pyFindAll p html_content
  let filtered_phones := phone_numbers.filter indianPhoneTest
  (emails.dedup, filtered_phones.dedup)

/-! ## `find_contact_links`

`BeautifulSoup` is an external library; a parsed page is represented by the
list of its anchor elements that carry an `href` attribute (exactly the
elements `soup.find_all('a', href=True)` enumerates, in document order),
each with its raw `href` value and its visible text (`link.text`).
`urllib.parse.urljoin` is likewise external and is passed in as a function
`ujoin` (first argument the base URL, second the href). -/

/-- An `<a href=...>` element: its `href` attribute and its text content. -/
structure Anchor where
  href : String
  text : String
  deriving DecidableEq

/-- The Boolean test of `find_contact_links`: some configured term occurs
in the stripped lower-cased anchor text or in the lower-cased href. -/
def anchorMatches (terms : List String) (a : Anchor) : Bool :=
  terms.any fun term =>
    containsSub term.toList (pyLower (pyStrip a.text)).toList ||
    containsSub term.toList (pyLower a.href).toList

/-- `ContactScraper.find_contact_links`: filter the href-carrying anchors by
`anchorMatches`, resolve each matching anchor's original (non-lowered) href
against the base URL, and deduplicate (`list(set(contact_links))`). -/
def find_contact_links (terms : List String) (ujoin : String → String → String)
    (anchors : List Anchor) (base_url : String) : List String :=
  ((anchors.filter (anchorMatches terms)).map fun a => ujoin base_url a.href).dedup

/-! ## `get_page_content` and the orchestrator -/

/-- A successfully fetched page: its raw text (fed to
`extract_contact_info`) together with its BeautifulSoup parse (the
href-carrying anchors, fed to `find_contact_links`). -/
structure Page where
  text : String
  anchors : List Anchor
  deriving DecidableEq

/-- The network: for each URL, either the fetched page or the text of the
exception raised by `requests.get`/`raise_for_status` (timeout, connection
error, non-2xx status, other). -/
abbrev Http := String → Except String Page

/-- `ContactScraper.get_page_content`: wrap the request in `try/except`,
returning `(response.text, None)` on success and `(None, str(e))` on any
exception; nothing propagates past this boundary. -/
def get_page_content (http : Http) (url : String) : Option Page × Option String :=
  match http url with
  | .ok page => (some page, none)
  | .error e => (none, some e)

/-- The final dictionary built by `scrape_website_prioritized`. -/
structure ScrapeOutcome where
  source : Option String
  source_url : Option String
  emails : List String
  phones : List String
  errors : List String
  deriving DecidableEq

/-- The candidate loop of `scrape_website_prioritized` (lines 171-186):
visit each contact link in order; on a fetch error append the error message
and continue; on a fetched page with a non-empty phone set short-circuit
with `source = 'contact_page'`; otherwise continue.  Falling off the end
(also when the candidate list is empty) resolves with the held main-page
extraction and `source = 'main_page'`. -/
def scrapeLoop (s : ContactScraper) (http : Http) (url : String)
    (main_emails main_phones : List String) :
    List String → List String → ScrapeOutcome
  | [], errs =>
    ⟨some "main_page", some url, main_emails, main_phones, errs⟩
  | link :: rest, errs =>
    match http link with
    | .error e =>
      scrapeLoop s http url main_emails main_phones rest
        (errs ++ ["Error fetching contact page " ++ link ++ ": " ++ e])
    | .ok page =>
      if (extract_contact_info s page.text).2.isEmpty then
        scrapeLoop s http url main_emails main_phones rest errs
      else
        ⟨some "contact_page", some link, (extract_contact_info s page.text).1,
          (extract_contact_info s page.text).2, errs⟩

/-- `ContactScraper.scrape_website_prioritized`.  The initial
`get_page_content` call is matched through the network directly: by
`get_page_content`'s definition the Python `if error:` test is exactly the
case split on `http url`. -/
def scrape_website_prioritized (s : ContactScraper)
    (ujoin : String → String → String) (http : Http) (url : String) :
    ScrapeOutcome :=
  match http url with
  | .error e =>
    ⟨none, none, [], [], ["Error fetching main page: " ++ e]⟩
  | .ok page =>
    let main := extract_contact_info s page.text
    scrapeLoop s http url main.1 main.2
      (find_contact_links s.contact_terms ujoin page.anchors url) []

/-- Trace semantics of the candidate loop: the URLs passed to
`get_page_content` during the loop, in order.  A candidate is fetched
unconditionally when reached; the loop stops after a candidate whose fetch
succeeded with a non-empty phone set. -/
def loopFetched (s : ContactScraper) (http : Http) : List String → List String
  | [] => []
  | link :: rest =>
    link ::
      (match http link with
       | .error _ => loopFetched s http rest
       | .ok page =>
         if (extract_contact_info s page.text).2.isEmpty then
           loopFetched s http rest
         else [])

/-- Trace semantics of `scrape_website_prioritized`: every URL passed to
`get_page_content` over the whole run, in order (the main page first, then
the visited candidates). -/
def scrapeFetched (s : ContactScraper) (ujoin : String → String → String)
    (http : Http) (url : String) : List String :=
  url ::
    (match http url with
     | .error _ => []
     | .ok page =>
       loopFetched s http (find_contact_links s.contact_terms ujoin page.anchors url))

/-- Claim-side predicate: candidate `link`'s fetch succeeds and its
extraction yields a non-empty phone set (the short-circuit condition of the
loop). -/
def winsAt (s : ContactScraper) (http : Http) (link : String) : Bool :=
  match http link with
  | .error _ => false
  | .ok page => !(extract_contact_info s page.text).2.isEmpty

/-- Claim-side description of the accumulated error list: one entry, in
order, for each candidate link whose fetch failed. -/
def failMsgs (http : Http) (links : List String) : List String :=
  links.filterMap fun link =>
    match http link with
    | .error e => some ("Error fetching contact page " ++ link ++ ": " ++ e)
    | .ok _ => none

/-! ## Behaviour of the candidate loop -/

/-- When no candidate wins, the loop falls through to the main page, having
fetched every candidate and accumulated one error per failed fetch. -/
theorem scrapeLoop_no_win (s : ContactScraper) (http : Http) (url : String)
    (me mp : List String) :
    ∀ (links errs : List String), (∀ l ∈ links, winsAt s http l = false) →
      scrapeLoop s http url me mp links errs =
        ⟨some "main_page", some url, me, mp, errs ++ failMsgs http links⟩ ∧
      loopFetched s http links = links := by
  intro links
  induction links with
  | nil =>
    intro errs _
    simp [scrapeLoop, loopFetched, failMsgs]
  | cons l rest ih =>
    intro errs hall
    have hl := hall l (List.mem_cons_self l rest)
    have hrest : ∀ x ∈ rest, winsAt s http x = false :=
      fun x hx => hall x (List.mem_cons_of_mem l hx)
    cases hhl : http l with
    | error e =>
      obtain ⟨h1, h2⟩ :=
        ih (errs ++ ["Error fetching contact page " ++ l ++ ": " ++ e]) hrest
      refine ⟨?_, ?_⟩
      · simp only [scrapeLoop, hhl, h1]
        simp [failMsgs, hhl, List.append_assoc]
      · simp only [loopFetched, hhl, h2]
    | ok page =>
      have hemp : (extract_contact_info s page.text).2.isEmpty = true := by
        have h' := hl
        unfold winsAt at h'
        rw [hhl] at h'
        simpa using h'
      obtain ⟨h1, h2⟩ := ih errs hrest
      refine ⟨?_, ?_⟩
      · simp only [scrapeLoop, hhl, hemp, if_true, h1]
        simp [failMsgs, hhl]
      · simp only [loopFetched, hhl, hemp, if_true, h2]

/-- When `find?` locates a winning candidate `w`, the loop short-circuits
at `w`: it fetched exactly the failing/empty prefix and then `w`, returns
`w`'s extraction, and keeps the errors of the failed prefix fetches. -/
theorem scrapeLoop_win (s : ContactScraper) (http : Http) (url : String)
    (me mp : List String) :
    ∀ (links errs : List String) (w : String),
      links.find? (winsAt s http) = some w →
      ∃ page, http w = Except.ok page ∧
        (extract_contact_info s page.text).2 ≠ [] ∧
        scrapeLoop s http url me mp links errs =
          ⟨some "contact_page", some w, (extract_contact_info s page.text).1,
            (extract_contact_info s page.text).2,
            errs ++ failMsgs http (links.takeWhile fun l => !(winsAt s http l))⟩ ∧
        loopFetched s http links =
          (links.takeWhile fun l => !(winsAt s http l)) ++ [w] := by
  intro links
  induction links with
  | nil =>
    intro errs w hw
    simp [List.find?] at hw
  | cons l rest ih =>
    intro errs w hw
    cases hpl : winsAt s http l with
    | true =>
      rw [List.find?_cons_of_pos _ hpl] at hw
      obtain rfl : l = w := by simpa using hw
      cases hhl : http l with
      | error e =>
        unfold winsAt at hpl
        rw [hhl] at hpl
        simp at hpl
      | ok page =>
        have hne : (extract_contact_info s page.text).2.isEmpty = false := by
          have h' := hpl
          unfold winsAt at h'
          rw [hhl] at h'
          simpa using h'
        refine ⟨page, rfl, by simpa [List.isEmpty_iff] using hne, ?_, ?_⟩
        · rw [List.takeWhile_cons_of_neg (by simp [hpl])]
          simp only [scrapeLoop, hhl, hne]
          simp [failMsgs]
        · rw [List.takeWhile_cons_of_neg (by simp [hpl])]
          simp only [loopFetched, hhl, hne]
          simp
    | false =>
      rw [List.find?_cons_of_neg _ (by simp [hpl])] at hw
      cases hhl : http l with
      | error e =>
        obtain ⟨page, hp1, hp2, hp3, hp4⟩ :=
          ih (errs ++ ["Error fetching contact page " ++ l ++ ": " ++ e]) w hw
        refine ⟨page, hp1, hp2, ?_, ?_⟩
        · rw [List.takeWhile_cons_of_pos (by simp [hpl])]
          simp only [scrapeLoop, hhl, hp3]
          simp [failMsgs, hhl]
        · rw [List.takeWhile_cons_of_pos (by simp [hpl])]
          simp only [loopFetched, hhl, hp4]
          simp
      | ok page =>
        have hemp : (extract_contact_info s page.text).2.isEmpty = true := by
          have h' := hpl
          unfold winsAt at h'
          rw [hhl] at h'
          simpa using h'
        obtain ⟨cp, hp1, hp2, hp3, hp4⟩ := ih errs w hw
        refine ⟨cp, hp1, hp2, ?_, ?_⟩
        · rw [List.takeWhile_cons_of_pos (by simp [hpl])]
          simp only [scrapeLoop, hhl, hemp, if_pos, hp3]
          simp [failMsgs, hhl]
        · rw [List.takeWhile_cons_of_pos (by simp [hpl])]
          simp only [loopFetched, hhl, hemp, if_pos, hp4]
          simp

/-- A list containing an element satisfying `p` has `find?` succeed. -/
theorem find?_succeeds {α : Type} (p : α → Bool) :
    ∀ (L : List α), (∃ x ∈ L, p x = true) → ∃ w, L.find? p = some w := by
  intro L
  induction L with
  | nil => rintro ⟨x, hx, -⟩; cases hx
  | cons a L ih =>
    rintro ⟨x, hx, hpx⟩
    cases hpa : p a with
    | true => exact ⟨a, List.find?_cons_of_pos _ hpa⟩
    | false =>
      rcases List.mem_cons.mp hx with rfl | hx'
      · rw [hpa] at hpx; cases hpx
      · obtain ⟨w, hw⟩ := ih ⟨x, hx', hpx⟩
        exact ⟨w, by rw [List.find?_cons_of_neg _ (by simp [hpa]), hw]⟩

/-! ## The claims -/

/-- C1.  If the main-page fetch succeeds and some contact-page candidate is
fetched successfully with a non-empty extracted phone set, then the outcome
has `source = 'contact_page'`, its `source_url` is the first such candidate
in visitation order (`find?` over the candidate list), its emails and
phones are exactly that candidate's extraction, the chosen page's phone set
is non-empty, and the run fetches precisely the main page, the candidates
before the winner, and the winner — no candidate after it (first-match
short-circuit). -/
theorem claim_C1 (s : ContactScraper) (ujoin : String → String → String)
    (http : Http) (url : String) (page : Page)
    (hmain : http url = Except.ok page)
    (hex : ∃ l ∈ find_contact_links s.contact_terms ujoin page.anchors url,
             winsAt s http l = true) :
    ∃ w cp,
      (find_contact_links s.contact_terms ujoin page.anchors url).find?
          (winsAt s http) = some w ∧
      http w = Except.ok cp ∧
      (extract_contact_info s cp.text).2 ≠ [] ∧
      scrape_website_prioritized s ujoin http url =
        ⟨some "contact_page", some w, (extract_contact_info s cp.text).1,
          (extract_contact_info s cp.text).2,
          failMsgs http
            ((find_contact_links s.contact_terms ujoin page.anchors url).takeWhile
              fun l => !(winsAt s http l))⟩ ∧
      scrapeFetched s ujoin http url =
        url ::
          (((find_contact_links s.contact_terms ujoin page.anchors url).takeWhile
            fun l => !(winsAt s http l)) ++ [w]) := by
  obtain ⟨w, hw⟩ := find?_succeeds (winsAt s http) _ hex
  obtain ⟨cp, h1, h2, h3, h4⟩ :=
    scrapeLoop_win s http url (extract_contact_info s page.text).1
      (extract_contact_info s page.text).2
      (find_contact_links s.contact_terms ujoin page.anchors url) [] w hw
  refine ⟨w, cp, hw, h1, h2, ?_, ?_⟩
  · simp only [scrape_website_prioritized, hmain]
    rw [h3]
    simp
  · simp only [scrapeFetched, hmain]
    rw [h4]

/-- C2.  If the main-page fetch succeeds and no contact-page candidate
wins (empty candidate set, or every candidate's fetch failed or extracted
an empty phone set), the outcome is `source = 'main_page'`, `source_url`
the input URL, the main page's own extraction (even if its phone set is
empty), with one accumulated error per failed candidate fetch, in order;
every candidate was fetched. -/
theorem claim_C2 (s : ContactScraper) (ujoin : String → String → String)
    (http : Http) (url : String) (page : Page)
    (hmain : http url = Except.ok page)
    (hnone : ∀ l ∈ find_contact_links s.contact_terms ujoin page.anchors url,
               winsAt s http l = false) :
    scrape_website_prioritized s ujoin http url =
      ⟨some "main_page", some url, (extract_contact_info s page.text).1,
        (extract_contact_info s page.text).2,
        failMsgs http (find_contact_links s.contact_terms ujoin page.anchors url)⟩ ∧
    scrapeFetched s ujoin http url =
      url :: find_contact_links s.contact_terms ujoin page.anchors url := by
  obtain ⟨h1, h2⟩ :=
    scrapeLoop_no_win s http url (extract_contact_info s page.text).1
      (extract_contact_info s page.text).2
      (find_contact_links s.contact_terms ujoin page.anchors url) [] hnone
  constructor
  · simp only [scrape_website_prioritized, hmain]
    rw [h1]
    simp
  · simp only [scrapeFetched, hmain]
    rw [h2]

/-- C3.  If the main-page fetch fails, the outcome has no source, no
source URL, empty emails and phones, and exactly one error entry (the
main-page message); the main page is the only URL fetched (the only
early-exit path: no candidate is fetched, and by the error branch no
extraction runs). -/
theorem claim_C3 (s : ContactScraper) (ujoin : String → String → String)
    (http : Http) (url : String) (e : String)
    (hmain : http url = Except.error e) :
    scrape_website_prioritized s ujoin http url =
      ⟨none, none, [], [], ["Error fetching main page: " ++ e]⟩ ∧
    scrapeFetched s ujoin http url = [url] := by
  constructor
  · simp only [scrape_website_prioritized, hmain]
  · simp only [scrapeFetched, hmain]

/-- C9.  `get_page_content` is total (no exception crosses its boundary)
and returns a pair with exactly one side populated: the page body with a
`none` error on success, or a `none` body with the original exception text
as the failure cause on any failure. -/
theorem claim_C9 (http : Http) (url : String) :
    (∃ page, http url = Except.ok page ∧
       get_page_content http url = (some page, none)) ∨
    (∃ e, http url = Except.error e ∧
       get_page_content http url = (none, some e)) := by
  cases h : http url with
  | ok page => exact Or.inl ⟨page, rfl, by simp [get_page_content, h]⟩
  | error e => exact Or.inr ⟨e, rfl, by simp [get_page_content, h]⟩

/-- C10.  On the short-circuit path (some candidate wins), the outcome
still carries one error entry for every candidate whose fetch failed
before the winner was reached: earlier non-fatal fetch errors are
preserved, not cleared. -/
theorem claim_C10 (s : ContactScraper) (ujoin : String → String → String)
    (http : Http) (url : String) (page : Page) (w : String)
    (hmain : http url = Except.ok page)
    (hfind : (find_contact_links s.contact_terms ujoin page.anchors url).find?
               (winsAt s http) = some w) :
    (scrape_website_prioritized s ujoin http url).source = some "contact_page" ∧
    (scrape_website_prioritized s ujoin http url).errors =
      failMsgs http
        ((find_contact_links s.contact_terms ujoin page.anchors url).takeWhile
          fun l => !(winsAt s http l)) := by
  obtain ⟨cp, h1, h2, h3, h4⟩ :=
    scrapeLoop_win s http url (extract_contact_info s page.text).1
      (extract_contact_info s page.text).2
      (find_contact_links s.contact_terms ujoin page.anchors url) [] w hfind
  constructor
  · simp only [scrape_website_prioritized, hmain]
    rw [h3]
  · simp only [scrape_website_prioritized, hmain]
    rw [h3]
    simp

/-- C4.  A phone string appears in the result of `extract_contact_info`
iff it is a non-overlapping `re.findall` match of at least one configured
phone pattern in the document AND its form after stripping `-`, `.`,
whitespace and parentheses starts with `+91` or `91`; the element kept is
the original matched text (the stripped form appears only in the test). -/
theorem claim_C4 (s : ContactScraper) (doc phone : String) :
    phone ∈ (extract_contact_info s doc).2 ↔
      ((∃ r ∈ s.phone_patterns, phone ∈ pyFindAll r doc) ∧
       (startsWithL "+91".toList (pyClean phone) = true ∨
        startsWithL "91".toList (pyClean phone) = true)) := by
  simp only [extract_contact_info, List.mem_dedup, List.mem_filter,
    List.mem_flatMap, indianPhoneTest, Bool.or_eq_true]

/-- C8.  For every input document the email list and the phone list
returned by `extract_contact_info` contain no duplicates
(`list(set(...))`). -/
theorem claim_C8 (s : ContactScraper) (doc : String) :
    (extract_contact_info s doc).1.Nodup ∧ (extract_contact_info s doc).2.Nodup :=
  ⟨List.nodup_dedup _, List.nodup_dedup _⟩

/-- C6.  `find_contact_links` includes a URL iff some href-carrying anchor
matches a configured contact term — plain substring containment of the
term in the lower-cased (whitespace-trimmed) visible text or in the
lower-cased href — and the URL is the anchor's original href resolved
against the base URL by the resolver (`urljoin`); the returned collection
has no duplicates. -/
theorem claim_C6 (terms : List String) (ujoin : String → String → String)
    (anchors : List Anchor) (base_url : String) :
    (∀ u, u ∈ find_contact_links terms ujoin anchors base_url ↔
       ∃ a ∈ anchors,
         (∃ t ∈ terms,
            containsSub t.toList (pyLower (pyStrip a.text)).toList = true ∨
            containsSub t.toList (pyLower a.href).toList = true) ∧
         u = ujoin base_url a.href)
    ∧ (find_contact_links terms ujoin anchors base_url).Nodup := by
  refine ⟨fun u => ?_, List.nodup_dedup _⟩
  simp only [find_contact_links, anchorMatches, List.mem_dedup, List.mem_map,
    List.mem_filter, List.any_eq_true, Bool.or_eq_true]
  constructor
  · rintro ⟨a, ⟨ha, ht⟩, rfl⟩
    exact ⟨a, ha, ht, rfl⟩
  · rintro ⟨a, ha, ht, rfl⟩
    exact ⟨a, ⟨ha, ht⟩, rfl⟩

/-- C7.  Scenario A: on
`"Email us: a@b.com or a@b.com. Call 91-9876543210."` the default
configuration extracts the email set `{"a@b.com"}` (the duplicate
collapses) and the phone set `{"91-9876543210"}` (matched by the first and
third default patterns, identical text). -/
theorem claim_C7 :
    extract_contact_info defaultScraper
        "Email us: a@b.com or a@b.com. Call 91-9876543210." =
      (["a@b.com"], ["91-9876543210"]) := by
  decide

/-- C5 counterexample.  The claim states that on
`"Call +91 987 654 3210 or 044-2345678"` the extracted phone set is
exactly `{"+91 987 654 3210"}`.  It is false: the third default pattern
also matches `"91 987 654 3210"` (the match starting inside
`"+91 987 654 3210"`, without the `+`), its stripped form starts with
`91`, so it is kept as well. -/
theorem claim_C5_counterexample :
    ¬ (∀ x : String,
        x ∈ (extract_contact_info defaultScraper
              "Call +91 987 654 3210 or 044-2345678").2 ↔
        x = "+91 987 654 3210") := by
  intro h
  have h1 : "91 987 654 3210" ∈
      (extract_contact_info defaultScraper
        "Call +91 987 654 3210 or 044-2345678").2 := by decide
  have h2 := (h "91 987 654 3210").mp h1
  exact absurd h2 (by decide)

/-- C5 amended.  On `"Call +91 987 654 3210 or 044-2345678"` the default
configuration returns the phone set
`{"91 987 654 3210", "+91 987 654 3210"}` — the claimed `"+91 987 654
3210"` together with the overlapping third-pattern match
`"91 987 654 3210"`; the `044-2345678` number is still excluded (no
`91`/`+91` prefix). -/
theorem claim_C5_amended :
    (extract_contact_info defaultScraper
        "Call +91 987 654 3210 or 044-2345678").2 =
      ["91 987 654 3210", "+91 987 654 3210"] := by
  decide

/-! ## Concrete witness scenario

A site `http://x` whose main page links to `/contact` (fetch fails with a
404) and `/reach`; the page at `/reach` lists an Indian phone number. -/

/-- A toy relative-URL resolver for the concrete scenario (the resolver is
a parameter of the model; any function may instantiate it). -/
def ujoinW : String → String → String := fun base href => base ++ href

def mainAnchorsW : List Anchor := [⟨"/contact", "Contact Us"⟩, ⟨"/reach", "Reach Us"⟩]

/-- Main page without phone numbers. -/
def mainPageW : Page := ⟨"", mainAnchorsW⟩

/-- Main page with a phone number of its own. -/
def mainPageM : Page := ⟨"Call 91-9876543210", mainAnchorsW⟩

def reachPageW : Page := ⟨"Dial +919876543210 now", []⟩

def emptyPageW : Page := ⟨"no numbers here", []⟩

/-- Network where the `/reach` candidate wins after the `/contact`
candidate's fetch fails. -/
def httpWinW : Http := fun u =>
  if u = "http://x" then .ok mainPageW
  else if u = "http://x/contact" then .error "404 Client Error"
  else if u = "http://x/reach" then .ok reachPageW
  else .error "unreachable"

/-- Network where no candidate wins: one candidate fetch fails, the other
candidate has no phone numbers. -/
def httpNoWinW : Http := fun u =>
  if u = "http://x" then .ok mainPageM
  else if u = "http://x/contact" then .error "404 Client Error"
  else if u = "http://x/reach" then .ok emptyPageW
  else .error "unreachable"

/-- Network where every fetch fails. -/
def httpDownW : Http := fun _ => .error "connection refused"

/-- Witness for C1 at the concrete scenario: both hypotheses hold and the
conclusion follows by the theorem (the winner is `http://x/reach`). -/
theorem claim_C1_witness :
    httpWinW "http://x" = Except.ok mainPageW ∧
    (∃ l ∈ find_contact_links defaultScraper.contact_terms ujoinW
             mainPageW.anchors "http://x",
       winsAt defaultScraper httpWinW l = true) ∧
    (∃ w cp,
      (find_contact_links defaultScraper.contact_terms ujoinW
          mainPageW.anchors "http://x").find?
          (winsAt defaultScraper httpWinW) = some w ∧
      httpWinW w = Except.ok cp ∧
      (extract_contact_info defaultScraper cp.text).2 ≠ [] ∧
      scrape_website_prioritized defaultScraper ujoinW httpWinW "http://x" =
        ⟨some "contact_page", some w,
          (extract_contact_info defaultScraper cp.text).1,
          (extract_contact_info defaultScraper cp.text).2,
          failMsgs httpWinW
            ((find_contact_links defaultScraper.contact_terms ujoinW
                mainPageW.anchors "http://x").takeWhile
              fun l => !(winsAt defaultScraper httpWinW l))⟩ ∧
      scrapeFetched defaultScraper ujoinW httpWinW "http://x" =
        "http://x" ::
          (((find_contact_links defaultScraper.contact_terms ujoinW
              mainPageW.anchors "http://x").takeWhile
            fun l => !(winsAt defaultScraper httpWinW l)) ++ [w])) :=
  ⟨rfl, by decide,
    claim_C1 defaultScraper ujoinW httpWinW "http://x" mainPageW rfl (by decide)⟩

/-- Witness for C2 at the concrete scenario: the main fetch succeeds, no
candidate wins (first fails, second has no phones), and the outcome is the
main page's own data with the accumulated candidate error. -/
theorem claim_C2_witness :
    httpNoWinW "http://x" = Except.ok mainPageM ∧
    (∀ l ∈ find_contact_links defaultScraper.contact_terms ujoinW
             mainPageM.anchors "http://x",
       winsAt defaultScraper httpNoWinW l = false) ∧
    (scrape_website_prioritized defaultScraper ujoinW httpNoWinW "http://x" =
      ⟨some "main_page", some "http://x",
        (extract_contact_info defaultScraper mainPageM.text).1,
        (extract_contact_info defaultScraper mainPageM.text).2,
        failMsgs httpNoWinW
          (find_contact_links defaultScraper.contact_terms ujoinW
            mainPageM.anchors "http://x")⟩ ∧
    scrapeFetched defaultScraper ujoinW httpNoWinW "http://x" =
      "http://x" ::
        find_contact_links defaultScraper.contact_terms ujoinW
          mainPageM.anchors "http://x") :=
  ⟨rfl, by decide,
    claim_C2 defaultScraper ujoinW httpNoWinW "http://x" mainPageM rfl (by decide)⟩

/-- Witness for C3 at the concrete scenario: the main fetch fails, the
outcome carries no source and exactly the main-page error, and only the
main URL is fetched. -/
theorem claim_C3_witness :
    httpDownW "http://x" = Except.error "connection refused" ∧
    (scrape_website_prioritized defaultScraper ujoinW httpDownW "http://x" =
      ⟨none, none, [], [], ["Error fetching main page: connection refused"]⟩ ∧
    scrapeFetched defaultScraper ujoinW httpDownW "http://x" = ["http://x"]) :=
  ⟨rfl,
    claim_C3 defaultScraper ujoinW httpDownW "http://x" "connection refused" rfl⟩

/-- Witness for C10 at the concrete scenario: the winner is
`http://x/reach` and the error from the earlier failed `/contact` fetch is
preserved in the short-circuited outcome. -/
theorem claim_C10_witness :
    httpWinW "http://x" = Except.ok mainPageW ∧
    (find_contact_links defaultScraper.contact_terms ujoinW
        mainPageW.anchors "http://x").find?
        (winsAt defaultScraper httpWinW) = some "http://x/reach" ∧
    ((scrape_website_prioritized defaultScraper ujoinW httpWinW
        "http://x").source = some "contact_page" ∧
     (scrape_website_prioritized defaultScraper ujoinW httpWinW
        "http://x").errors =
       failMsgs httpWinW
         ((find_contact_links defaultScraper.contact_terms ujoinW
             mainPageW.anchors "http://x").takeWhile
           fun l => !(winsAt defaultScraper httpWinW l))) :=
  ⟨rfl, by decide,
    claim_C10 defaultScraper ujoinW httpWinW "http://x" mainPageW
      "http://x/reach" rfl (by decide)⟩

end ContactsScraper
